import Mathlib

/-!
Shallow embedding of the scheduler service (scheduler.go) and proofs about it.

The program is a persistent job dispatcher with three workers: a one-shot
scheduler sweeping a Job store, a cron engine rebuilt from a Cron store on a
reconfigure signal, and an HTTP gateway. External collaborators (the Prisma
store client, the Go HTTP client, the robfig cron parser) are modelled as
oracle parameters; the control flow of each function in scheduler.go is
translated directly.
-/

namespace Sched

/-- Bytes of an HTTP payload, each byte a natural number. -/
abbrev Bytes := List Nat

/-- A row of the Job table (db.JobModel): primary-key id, due timestamp
(instants as integers), optional opaque body. -/
structure Job where
  id : String
  scheduledFor : Int
  body : Option Bytes
  deriving Repr, DecidableEq

/-- A row of the Cron table (db.CronModel): caller-supplied id and a cron
schedule expression (field Specification). -/
structure CronModel where
  ID : String
  Specification : String
  deriving Repr, DecidableEq

/-- The wire form of a cron descriptor (struct cronJob in scheduler.go):
fields JobID and Spec. -/
structure cronJob where
  JobID : String
  Spec : String
  deriving Repr, DecidableEq

/-- Minimal JSON values, enough for the payloads the code marshals. -/
inductive Json where
  | str : String → Json
  | obj : List (String × Json) → Json
  deriving Repr

/-- Body of an outbound request: raw bytes (one-shot dispatch) or a JSON
document produced by json.Marshal (cron dispatch). -/
inductive OutBody where
  | raw : Bytes → OutBody
  | json : Json → OutBody
  deriving Repr

/-- The fixed header name carrying the shared secret (const headerSecretKey). -/
def headerSecretKey : String := "Scheduler-Secret"

/-- An outbound HTTP request as assembled by the code before it is handed to
http.DefaultClient.Do. -/
structure OutRequest where
  method : String
  url : String
  headers : List (String × String)
  body : OutBody
  deriving Repr

/-- Outcome of http.DefaultClient.Do: a transport error, or a response with a
status code. -/
inductive HttpOutcome where
  | transportError : HttpOutcome
  | response : Nat → HttpOutcome
  deriving Repr, DecidableEq

/-- Boolean success test for an Except result. -/
def exceptOk {α : Type} : Except String α → Bool
  | Except.ok _ => true
  | Except.error _ => false

/-- The request executeJob sends for a one-shot job: POST to the configured
endpoint, the raw body of the job passed through verbatim (an absent body
gives a nil reader, hence an empty request payload), and the shared secret
set in the fixed header. -/
def jobRequest (secret endpoint : String) (job : Job) : OutRequest :=
  { method := "POST", url := endpoint,
    headers := [(headerSecretKey, secret)],
    body := OutBody.raw (job.body.getD []) }

/-- executeJob: send the one-shot request; a transport error is an error, and
any status other than 200 is an error (resp.StatusCode != http.StatusOK). -/
def executeJob (secret endpoint : String) (send : OutRequest → HttpOutcome)
    (job : Job) : Except String Unit :=
  match send (jobRequest secret endpoint job) with
  | HttpOutcome.transportError => Except.error "transport error"
  | HttpOutcome.response status =>
      if status = 200 then Except.ok () else Except.error "non-ok status"

/-- The JSON payload json.Marshal produces for cronJobRequest: an object with
the single field cron_id holding the descriptor id. -/
def cronJobRequestJson (id : String) : Json :=
  Json.obj [("cron_id", Json.str id)]

/-- The request executeCronJob sends when a cron trigger fires: POST to the
configured endpoint with the cron_id JSON payload and the shared secret in
the fixed header. -/
def cronRequest (secret endpoint : String) (id : String) : OutRequest :=
  { method := "POST", url := endpoint,
    headers := [(headerSecretKey, secret)],
    body := OutBody.json (cronJobRequestJson id) }

/-- executeCronJob: send the cron request; success exactly on HTTP 200. -/
def executeCronJob (secret endpoint : String) (send : OutRequest → HttpOutcome)
    (id : String) : Except String Unit :=
  match send (cronRequest secret endpoint id) with
  | HttpOutcome.transportError => Except.error "transport error"
  | HttpOutcome.response status =>
      if status = 200 then Except.ok () else Except.error "non-ok status"

/-- The FindMany query of executePendingJobs: all jobs whose scheduledFor is
at or before the current time. -/
def dueJobs (now : Int) (store : List Job) : List Job :=
  store.filter (fun j => decide (j.scheduledFor ≤ now))

/-- The FindUnique(ID).Delete() store operation: remove the row with the
given primary key. -/
def deleteJob (store : List Job) (id : String) : List Job :=
  store.filter (fun j => decide (j.id ≠ id))

/-- Result of one sweep: the sequence of Callback Sender invocations (job id
paired with whether delivery succeeded), the store state afterwards, and the
error executePendingJobs returned, if any. -/
structure SweepOutcome where
  fired : List (String × Bool)
  store : List Job
  err : Option String
  deriving Repr, DecidableEq

/-- The loop body of executePendingJobs over the due list: invoke the
Callback Sender for the job (the outcome is only logged), then delete the job
from the store; if the delete fails the sweep aborts with that error, with
the store keeping every job not yet deleted. The oracle deleteOk says
whether the delete store operation succeeds for a given id. -/
def sweepJobs (secret endpoint : String) (send : OutRequest → HttpOutcome)
    (deleteOk : String → Bool) : List Job → List Job → SweepOutcome
  | [], store => ⟨[], store, none⟩
  | j :: rest, store =>
      let delivered := exceptOk (executeJob secret endpoint send j)
      if deleteOk j.id then
        let out := sweepJobs secret endpoint send deleteOk rest (deleteJob store j.id)
        ⟨(j.id, delivered) :: out.fired, out.store, out.err⟩
      else ⟨[(j.id, delivered)], store, some "delete failed"⟩

/-- executePendingJobs: list the due jobs (the oracle findOk says whether the
FindMany query succeeds), then process each one in order. -/
def executePendingJobs (secret endpoint : String) (send : OutRequest → HttpOutcome)
    (now : Int) (store : List Job) (findOk : Bool) (deleteOk : String → Bool) :
    SweepOutcome :=
  if findOk then sweepJobs secret endpoint send deleteOk (dueJobs now store) store
  else ⟨[], store, some "find failed"⟩

/-- nextScheduledJob: FindMany ordered by scheduledFor ascending, Take 1 —
the earliest due time among the remaining jobs, or none when the store is
empty; an error when the query fails. -/
def nextScheduledJob (store : List Job) (findOk : Bool) :
    Except String (Option Int) :=
  if findOk then Except.ok ((store.map Job.scheduledFor).min?)
  else Except.error "find failed"

/-- States of the one-shot scheduler worker (the loop of scheduler.start):
either running a sweep, blocked forever at the bare channel receive (no
pending job), blocked in the select with a timer armed for time t, or
returned from start (stopped, carrying the fatal error if any). -/
inductive SchedState where
  | sweeping : SchedState
  | waitingForSignal : SchedState
  | sleepingUntil : Int → SchedState
  | stopped : Option String → SchedState
  deriving Repr, DecidableEq

/-- Whether a scheduler worker state is the terminated state. -/
def SchedState.isStopped : SchedState → Bool
  | SchedState.stopped _ => true
  | _ => false

/-- External stimuli that can end a blocking state of the worker: a value
arriving on the recomp channel, or the armed timer firing. -/
inductive WakeEvent where
  | signal : WakeEvent
  | timerFired : WakeEvent
  deriving Repr, DecidableEq

/-- One pass of the loop body of scheduler.start from the sweeping state:
run executePendingJobs (an error is returned from start, terminating the
worker); then nextScheduledJob on the resulting store (an error likewise
terminates); with no remaining job, block at the bare receive; otherwise
block in the select with the timer armed for the earliest due time. Returns
the state entered together with the store after the sweep. -/
def schedSweepStep (secret endpoint : String) (send : OutRequest → HttpOutcome)
    (now : Int) (findOk1 : Bool) (deleteOk : String → Bool) (findOk2 : Bool)
    (store : List Job) : SchedState × List Job :=
  let out := executePendingJobs secret endpoint send now store findOk1 deleteOk
  match out.err with
  | some e => (SchedState.stopped (some e), out.store)
  | none =>
      match nextScheduledJob out.store findOk2 with
      | Except.error e => (SchedState.stopped (some e), out.store)
      | Except.ok none => (SchedState.waitingForSignal, out.store)
      | Except.ok (some t) => (SchedState.sleepingUntil t, out.store)

/-- How a blocking state reacts to a stimulus. The bare receive is ended
only by a signal (no timer is armed there); the select is ended by either
arm; both resume the loop at the next sweep. A stopped worker stays
stopped, and no wake ever stops the worker. -/
def schedWakeStep : SchedState → WakeEvent → SchedState
  | SchedState.waitingForSignal, WakeEvent.signal => SchedState.sweeping
  | SchedState.waitingForSignal, WakeEvent.timerFired => SchedState.waitingForSignal
  | SchedState.sleepingUntil _, _ => SchedState.sweeping
  | SchedState.sweeping, _ => SchedState.sweeping
  | SchedState.stopped e, _ => SchedState.stopped e

/-- createNewJob: CreateOne with the given due time and body; on store
failure (oracle createOk false) return the error without signalling; on
success send on the recomp channel and return the store-assigned id
(modelled by the oracle newId). Result: the returned Except, the store
afterwards, and whether the recompute signal was emitted. -/
def createNewJob (store : List Job) (due : Int) (body : Option Bytes)
    (newId : String) (createOk : Bool) :
    Except String String × List Job × Bool :=
  if createOk then
    (Except.ok newId, store ++ [{ id := newId, scheduledFor := due, body := body }], true)
  else (Except.error "store failure", store, false)

/-- deleteFutureJob: FindUnique(ID).Delete(); a not-found outcome (the id is
absent from the store) is swallowed and returns nil with no signal and no
state change; a genuine store failure (oracle deleteOk false) is returned;
on actual deletion the recompute signal is emitted. -/
def deleteFutureJob (store : List Job) (id : String) (deleteOk : Bool) :
    Except String Unit × List Job × Bool :=
  if deleteOk then
    if store.any (fun j => j.id == id) then
      (Except.ok (), deleteJob store id, true)
    else (Except.ok (), store, false)
  else (Except.error "store failure", store, false)

/-- getCronJobs: Cron.FindMany, each row mapped to a cronJob value. -/
def getCronJobs (store : List CronModel) (findOk : Bool) :
    Except String (List cronJob) :=
  if findOk then
    Except.ok (store.map (fun j => { JobID := j.ID, Spec := j.Specification }))
  else Except.error "find failed"

/-- clearCronJobs: Cron.FindMany().Delete() — the whole table is emptied in
one store operation (which either fully succeeds or fails). -/
def clearCronJobs (store : List CronModel) (clearOk : Bool) :
    Except String (List CronModel) :=
  if clearOk then Except.ok [] else Except.error "store failure"

/-- insertCronJob: Cron.CreateOne with the id and the schedule expression of
the descriptor, appended to the table. -/
def insertCronJob (store : List CronModel) (cj : cronJob) : List CronModel :=
  store ++ [{ ID := cj.JobID, Specification := cj.Spec }]

/-- The insert loop of cronHandler: insert the descriptors in order,
stopping at the first failing insert (oracle insertOk); returns the store
reached and whether every insert succeeded. -/
def insertCronJobs (store : List CronModel) (insertOk : cronJob → Bool) :
    List cronJob → List CronModel × Bool
  | [] => (store, true)
  | cj :: rest =>
      if insertOk cj then insertCronJobs (insertCronJob store cj) insertOk rest
      else (store, false)

/-- The AddFunc loop of crons.start: register one trigger per descriptor; a
trigger is the descriptor itself (its callback sends the cron_id request).
AddFunc fails exactly when the cron library rejects the schedule expression
(oracle addOk), and that error is returned from the worker. -/
def addFuncs (addOk : String → Bool) : List cronJob → Except String (List cronJob)
  | [] => Except.ok []
  | j :: rest =>
      if addOk j.Spec then
        match addFuncs addOk rest with
        | Except.ok ts => Except.ok (j :: ts)
        | Except.error e => Except.error e
      else Except.error "bad spec"

/-- One BUILDING pass of crons.start: load all descriptors from the Cron
store, then register one trigger per loaded descriptor; a failure of the
load or of any registration is returned from the worker. -/
def cronsBuildStep (store : List CronModel) (findOk : Bool)
    (addOk : String → Bool) : Except String (List cronJob) :=
  match getCronJobs store findOk with
  | Except.error e => Except.error e
  | Except.ok jobs => addFuncs addOk jobs

/-- States of the cron engine worker: running with the registered trigger
set of the current generation, or returned from start with a fatal error. -/
inductive CronState where
  | running : List cronJob → CronState
  | stopped : Option String → CronState
  deriving Repr, DecidableEq

/-- Whether the cron engine worker terminated with an error (which the
top-level runServers turns into shutting every worker down). -/
def CronState.isFatal : CronState → Bool
  | CronState.stopped (some _) => true
  | _ => false

/-- One build of the cron engine loop: on success the new generation runs
with the registered triggers until the next reconfigure signal; on failure
the worker returns the error. -/
def cronsStep (store : List CronModel) (findOk : Bool)
    (addOk : String → Bool) : CronState :=
  match cronsBuildStep store findOk addOk with
  | Except.error e => CronState.stopped (some e)
  | Except.ok ts => CronState.running ts

/-- Result of the /insert handler: HTTP status, the response id when one was
written, the Job store afterwards, and whether the recompute signal was
emitted. -/
structure InsertHandlerResult where
  status : Nat
  respId : Option String
  store : List Job
  signaled : Bool
  deriving Repr, DecidableEq

/-- insertHandler: check the shared-secret header against the configured
secret first (mismatch gives 401 and nothing further runs); then decode the
request body (a parse failure gives 400); then createNewJob, giving 500 on
store failure, otherwise 200 with the new id. The body parameter is the
decoded pair of timestamp and raw payload, none standing for malformed
JSON. -/
def insertHandler (cfgSecret hdrSecret : String)
    (body : Option (Int × Option Bytes)) (store : List Job)
    (newId : String) (createOk : Bool) : InsertHandlerResult :=
  if hdrSecret ≠ cfgSecret then ⟨401, none, store, false⟩
  else
    match body with
    | none => ⟨400, none, store, false⟩
    | some (ts, b) =>
        match createNewJob store ts b newId createOk with
        | (Except.ok jid, st, sig) => ⟨200, some jid, st, sig⟩
        | (Except.error _, st, sig) => ⟨500, none, st, sig⟩

/-- Result of the /delete or /cron handler: HTTP status, the store
afterwards, and whether the wake signal was emitted. -/
structure MutHandlerResult (σ : Type) where
  status : Nat
  store : σ
  signaled : Bool
  deriving Repr, DecidableEq

/-- deleteHandler: secret check, then decode (the decoded body is the job id
to cancel, none standing for malformed JSON), then deleteFutureJob; a store
failure gives 500, otherwise an empty 200 (also when the id was absent). -/
def deleteHandler (cfgSecret hdrSecret : String) (body : Option String)
    (store : List Job) (deleteOk : Bool) : MutHandlerResult (List Job) :=
  if hdrSecret ≠ cfgSecret then ⟨401, store, false⟩
  else
    match body with
    | none => ⟨400, store, false⟩
    | some id =>
        match deleteFutureJob store id deleteOk with
        | (Except.ok _, st, sig) => ⟨200, st, sig⟩
        | (Except.error _, st, sig) => ⟨500, st, sig⟩

/-- cronHandler: secret check, then decode the descriptor list (none
standing for malformed JSON), then clearCronJobs, then insert each
descriptor in order; the first failure of the clear or of an insert gives
500 with no signal and no rollback; only after every insert succeeded is
the reconfigure signal sent, and the response is an empty 200. -/
def cronHandler (cfgSecret hdrSecret : String) (body : Option (List cronJob))
    (store : List CronModel) (clearOk : Bool) (insertOk : cronJob → Bool) :
    MutHandlerResult (List CronModel) :=
  if hdrSecret ≠ cfgSecret then ⟨401, store, false⟩
  else
    match body with
    | none => ⟨400, store, false⟩
    | some jobs =>
        match clearCronJobs store clearOk with
        | Except.error _ => ⟨500, store, false⟩
        | Except.ok cleared =>
            match insertCronJobs cleared insertOk jobs with
            | (st, true) => ⟨200, st, true⟩
            | (st, false) => ⟨500, st, false⟩

/-- A Go channel of unit values, reduced to what governs blocking: its
buffer capacity and how many values sit in the buffer. -/
structure GoChan where
  capacity : Nat
  buffered : Nat
  deriving Repr, DecidableEq

/-- The recomp channel both newScheduler and newCrons create: make(chan
struct, no size argument), an unbuffered channel of capacity zero. -/
def recompChan : GoChan := { capacity := 0, buffered := 0 }

/-- A send on a Go channel completes without blocking exactly when a
receiver is already parked at a receive, or a buffer slot is free. -/
def sendCompletesImmediately (c : GoChan) (receiverWaiting : Bool) : Bool :=
  receiverWaiting || decide (c.buffered < c.capacity)

/-- Interleaving state of the unbuffered signal channel between the mutating
request handlers (the senders) and the one worker goroutine that receives:
whether the worker is parked at its receive, how many senders are blocked in
the send, and how many receives (worker wake-ups) completed so far. -/
structure SignalSystem where
  workerReceiving : Bool
  blockedSenders : Nat
  wakes : Nat
  deriving Repr, DecidableEq

/-- Atomic events of the signal interleaving: a mutation reaching its send
on the channel, and the worker finishing a sweep and parking at its
receive. -/
inductive SignalStep where
  | emit : SignalStep
  | park : SignalStep
  deriving Repr, DecidableEq

/-- Semantics of the capacity-zero channel. An emit while the worker is
parked is an immediate rendezvous (one wake, worker resumes sweeping); an
emit while the worker is mid-sweep blocks the sender, since the channel has
no buffer. A park while senders are blocked is an immediate rendezvous
consuming exactly one of them; a park with no blocked sender leaves the
worker waiting. -/
def signalStep : SignalSystem → SignalStep → SignalSystem
  | s, SignalStep.emit =>
      if s.workerReceiving then ⟨false, s.blockedSenders, s.wakes + 1⟩
      else ⟨false, s.blockedSenders + 1, s.wakes⟩
  | s, SignalStep.park =>
      if s.workerReceiving then s
      else
        match s.blockedSenders with
        | Nat.succ n => ⟨false, n, s.wakes + 1⟩
        | 0 => ⟨true, 0, s.wakes⟩

/-- Run a sequence of signal events from a starting state. -/
def runSignals (s : SignalSystem) (steps : List SignalStep) : SignalSystem :=
  steps.foldl signalStep s

/-- The insert loop appends exactly the longest prefix of descriptors that
insert successfully, and reports success exactly when all of them do. -/
theorem insertCronJobs_eq (insertOk : cronJob → Bool) :
    ∀ (jobs : List cronJob) (st : List CronModel),
      insertCronJobs st insertOk jobs
        = (st ++ (jobs.takeWhile insertOk).map
              (fun j => { ID := j.JobID, Specification := j.Spec }),
           jobs.all insertOk) := by
  intro jobs
  induction jobs with
  | nil => intro st; simp [insertCronJobs]
  | cons cj rest ih =>
      intro st
      by_cases h : insertOk cj
      · simp [insertCronJobs, h, ih, insertCronJob, List.takeWhile_cons]
      · simp [insertCronJobs, h, List.takeWhile_cons]

/-- C8: create_job persists a new Job with the given due time and payload,
emits the recompute signal and returns the store-assigned id; on store
failure it returns the error, changes nothing and emits no signal. -/
theorem c8_createNewJob_persists_signals_returns
    (store : List Job) (due : Int) (body : Option Bytes) (newId : String) :
    createNewJob store due body newId true
        = (Except.ok newId,
           store ++ [{ id := newId, scheduledFor := due, body := body }], true)
    ∧ createNewJob store due body newId false
        = (Except.error "store failure", store, false) := by
  constructor <;> simp [createNewJob]

/-- C4: cancel_job on an absent id reports success, leaves the store
unchanged and emits no signal; on a present id it deletes the job and emits
the signal; it errors only on a store failure distinct from not-found. -/
theorem c4_deleteFutureJob_idempotent_cancel (store : List Job) (id : String) :
    deleteFutureJob store id true
        = (Except.ok (),
           if store.any (fun j => j.id == id) then deleteJob store id else store,
           store.any (fun j => j.id == id))
    ∧ deleteFutureJob store id false = (Except.error "store failure", store, false) := by
  constructor
  · by_cases h : store.any (fun j => j.id == id) <;> simp [deleteFutureJob, h]
  · simp [deleteFutureJob]

/-- C2: reconfigure clears the Cron store, then inserts the new descriptors
in order; the reconfigure signal is emitted exactly when every insert
succeeded (in which case the handler answers 200); a clear failure answers
500 leaving the old store, and an insert failure answers 500 with no signal
leaving the partially-applied prefix in place (no rollback). -/
theorem c2_cronHandler_full_replace (cfg : String) (jobs : List cronJob)
    (store : List CronModel) (insertOk : cronJob → Bool) :
    (cronHandler cfg cfg (some jobs) store true insertOk).store
        = (jobs.takeWhile insertOk).map
            (fun j => { ID := j.JobID, Specification := j.Spec })
    ∧ (cronHandler cfg cfg (some jobs) store true insertOk).signaled
        = jobs.all insertOk
    ∧ (cronHandler cfg cfg (some jobs) store true insertOk).status
        = (if jobs.all insertOk then 200 else 500)
    ∧ cronHandler cfg cfg (some jobs) store false insertOk = ⟨500, store, false⟩ := by
  refine ⟨?_, ?_, ?_, ?_⟩ <;>
    by_cases h : jobs.all insertOk <;>
      simp [cronHandler, clearCronJobs, insertCronJobs_eq, h]

/-- C5: a mutating request whose shared-secret header differs from the
configured secret is answered 401 by each of the three handlers, with the
request body never decoded (the result is the same for every body), the
store unchanged and no signal emitted. -/
theorem c5_auth_mismatch_rejected (cfg hdr : String) (hsec : hdr ≠ cfg) :
    (∀ (body : Option (Int × Option Bytes)) (store : List Job) (newId : String)
        (createOk : Bool),
      insertHandler cfg hdr body store newId createOk = ⟨401, none, store, false⟩)
    ∧ (∀ (body : Option String) (store : List Job) (deleteOk : Bool),
      deleteHandler cfg hdr body store deleteOk = ⟨401, store, false⟩)
    ∧ (∀ (body : Option (List cronJob)) (store : List CronModel) (clearOk : Bool)
        (insertOk : cronJob → Bool),
      cronHandler cfg hdr body store clearOk insertOk = ⟨401, store, false⟩) := by
  refine ⟨?_, ?_, ?_⟩ <;> intros <;>
    simp [insertHandler, deleteHandler, cronHandler, hsec]

/-- C5 witness at a concrete mismatching secret. -/
theorem c5_auth_mismatch_rejected_witness :
    ("wrong" ≠ "right")
    ∧ ((∀ (body : Option (Int × Option Bytes)) (store : List Job) (newId : String)
          (createOk : Bool),
        insertHandler "right" "wrong" body store newId createOk
          = ⟨401, none, store, false⟩)
      ∧ (∀ (body : Option String) (store : List Job) (deleteOk : Bool),
        deleteHandler "right" "wrong" body store deleteOk = ⟨401, store, false⟩)
      ∧ (∀ (body : Option (List cronJob)) (store : List CronModel) (clearOk : Bool)
          (insertOk : cronJob → Bool),
        cronHandler "right" "wrong" body store clearOk insertOk
          = ⟨401, store, false⟩)) :=
  ⟨by decide, c5_auth_mismatch_rejected "right" "wrong" (by decide)⟩

/-- C6: the one-shot dispatch is a POST to the configured endpoint carrying
the raw job body verbatim (an absent body giving an empty payload) and the
shared secret in the fixed header; the cron dispatch is a POST with the
cron_id JSON payload and the same header; both are classified successful
exactly when the response status is 200. -/
theorem c6_outbound_requests (secret endpoint : String)
    (send : OutRequest → HttpOutcome) :
    (∀ job : Job, jobRequest secret endpoint job
        = { method := "POST", url := endpoint,
            headers := [(headerSecretKey, secret)],
            body := OutBody.raw (job.body.getD []) })
    ∧ (∀ id : String, cronRequest secret endpoint id
        = { method := "POST", url := endpoint,
            headers := [(headerSecretKey, secret)],
            body := OutBody.json (Json.obj [("cron_id", Json.str id)]) })
    ∧ (∀ job : Job, exceptOk (executeJob secret endpoint send job) = true
        ↔ send (jobRequest secret endpoint job) = HttpOutcome.response 200)
    ∧ (∀ id : String, exceptOk (executeCronJob secret endpoint send id) = true
        ↔ send (cronRequest secret endpoint id) = HttpOutcome.response 200) := by
  refine ⟨fun job => rfl, fun id => rfl, fun job => ?_, fun id => ?_⟩
  · cases h : send (jobRequest secret endpoint job) with
    | transportError => simp [executeJob, h, exceptOk]
    | response status =>
        by_cases hs : status = 200 <;> simp [executeJob, h, hs, exceptOk]
  · cases h : send (cronRequest secret endpoint id) with
    | transportError => simp [executeCronJob, h, exceptOk]
    | response status =>
        by_cases hs : status = 200 <;> simp [executeCronJob, h, hs, exceptOk]

/-- When the cron library accepts every schedule expression, the AddFunc
loop registers exactly the given descriptors. -/
theorem addFuncs_all_ok (addOk : String → Bool) :
    ∀ jobs : List cronJob, (∀ j ∈ jobs, addOk j.Spec = true) →
      addFuncs addOk jobs = Except.ok jobs := by
  intro jobs
  induction jobs with
  | nil => intro _; rfl
  | cons j rest ih =>
      intro h
      have hj : addOk j.Spec = true := h j (List.mem_cons_self j rest)
      have hrest := ih (fun x hx => h x (List.mem_cons_of_mem j hx))
      simp [addFuncs, hj, hrest]

/-- C7: a rebuild of the cron engine loads every descriptor from the Cron
store and registers exactly one trigger per loaded descriptor, so a store
holding N descriptors yields a running generation of exactly N triggers. -/
theorem c7_build_one_trigger_per_descriptor (store : List CronModel)
    (addOk : String → Bool) (h : ∀ d ∈ store, addOk d.Specification = true) :
    cronsBuildStep store true addOk
        = Except.ok (store.map (fun d => { JobID := d.ID, Spec := d.Specification }))
    ∧ (store.map (fun d => ({ JobID := d.ID, Spec := d.Specification } : cronJob))).length
        = store.length
    ∧ cronsStep store true addOk
        = CronState.running
            (store.map (fun d => { JobID := d.ID, Spec := d.Specification })) := by
  have hb : cronsBuildStep store true addOk
      = Except.ok (store.map (fun d => { JobID := d.ID, Spec := d.Specification })) := by
    have hall : ∀ j ∈ store.map
        (fun d : CronModel => ({ JobID := d.ID, Spec := d.Specification } : cronJob)),
        addOk j.Spec = true := by
      intro j hj
      rcases List.mem_map.mp hj with ⟨d, hd, rfl⟩
      exact h d hd
    simp [cronsBuildStep, getCronJobs, addFuncs_all_ok addOk _ hall]
  refine ⟨hb, List.length_map _ _, ?_⟩
  simp [cronsStep, hb]

/-- C7 witness: a store of two descriptors whose expressions the library
accepts builds a generation of exactly two triggers. -/
theorem c7_build_one_trigger_per_descriptor_witness :
    (∀ d ∈ ([{ ID := "a", Specification := "sa" },
             { ID := "b", Specification := "sb" }] : List CronModel),
        (fun _ : String => true) d.Specification = true)
    ∧ (cronsBuildStep [{ ID := "a", Specification := "sa" },
            { ID := "b", Specification := "sb" }] true (fun _ => true)
          = Except.ok (([{ ID := "a", Specification := "sa" },
              { ID := "b", Specification := "sb" }] : List CronModel).map
                (fun d => { JobID := d.ID, Spec := d.Specification }))
        ∧ (([{ ID := "a", Specification := "sa" },
             { ID := "b", Specification := "sb" }] : List CronModel).map
              (fun d => ({ JobID := d.ID, Spec := d.Specification } : cronJob))).length
            = ([{ ID := "a", Specification := "sa" },
                { ID := "b", Specification := "sb" }] : List CronModel).length
        ∧ cronsStep [{ ID := "a", Specification := "sa" },
              { ID := "b", Specification := "sb" }] true (fun _ => true)
            = CronState.running (([{ ID := "a", Specification := "sa" },
                { ID := "b", Specification := "sb" }] : List CronModel).map
                  (fun d => { JobID := d.ID, Spec := d.Specification }))) :=
  ⟨by decide, c7_build_one_trigger_per_descriptor _ (fun _ => true) (by decide)⟩

/-- C10: reconfigure persists descriptors without validating the schedule
expression: a descriptor the cron library rejects is accepted with 200 and
the signal is emitted, yet the next build fails at AddFunc and that failure
is returned from the cron worker as a fatal error rather than being
isolated to the one bad descriptor. -/
theorem c10_unvalidated_descriptor_fatal (cfg : String) (store : List CronModel)
    (d : cronJob) (addOk : String → Bool) (h : addOk d.Spec = false) :
    cronHandler cfg cfg (some [d]) store true (fun _ => true)
        = ⟨200, [{ ID := d.JobID, Specification := d.Spec }], true⟩
    ∧ cronsBuildStep [{ ID := d.JobID, Specification := d.Spec }] true addOk
        = Except.error "bad spec"
    ∧ (cronsStep [{ ID := d.JobID, Specification := d.Spec }] true addOk).isFatal
        = true := by
  refine ⟨?_, ?_, ?_⟩
  · simp [cronHandler, clearCronJobs, insertCronJobs, insertCronJob]
  · simp [cronsBuildStep, getCronJobs, addFuncs, h]
  · simp [cronsStep, cronsBuildStep, getCronJobs, addFuncs, h, CronState.isFatal]

/-- C10 witness: one concrete rejected expression. -/
theorem c10_unvalidated_descriptor_fatal_witness :
    ((fun _ : String => false) ({ JobID := "x", Spec := "not a cron" } : cronJob).Spec
        = false)
    ∧ (cronHandler "s" "s" (some [{ JobID := "x", Spec := "not a cron" }]) [] true
          (fun _ => true)
        = ⟨200, [{ ID := "x", Specification := "not a cron" }], true⟩
      ∧ cronsBuildStep [{ ID := "x", Specification := "not a cron" }] true
            (fun _ => false)
          = Except.error "bad spec"
      ∧ (cronsStep [{ ID := "x", Specification := "not a cron" }] true
            (fun _ => false)).isFatal = true) :=
  ⟨by decide,
    c10_unvalidated_descriptor_fatal "s" [] { JobID := "x", Spec := "not a cron" }
      (fun _ => false) (by decide)⟩

/-- When every delete succeeds, the sweep fires the Callback Sender once per
due job in order, deletes each one, and finishes without error. -/
theorem sweepJobs_deletes_ok (secret endpoint : String)
    (send : OutRequest → HttpOutcome) (deleteOk : String → Bool) :
    ∀ (due store : List Job), (∀ j ∈ due, deleteOk j.id = true) →
      sweepJobs secret endpoint send deleteOk due store
        = ⟨due.map (fun j => (j.id, exceptOk (executeJob secret endpoint send j))),
           due.foldl (fun st j => deleteJob st j.id) store, none⟩ := by
  intro due
  induction due with
  | nil => intro store _; rfl
  | cons j rest ih =>
      intro store h
      have hj : deleteOk j.id = true := h j (List.mem_cons_self j rest)
      have hrest := ih (deleteJob store j.id)
        (fun x hx => h x (List.mem_cons_of_mem j hx))
      simp [sweepJobs, hj, hrest]

/-- Folding the delete-by-id operation over a list of jobs removes exactly
the rows whose id occurs in that list. -/
theorem foldl_deleteJob_eq_filter :
    ∀ (due store : List Job),
      due.foldl (fun st j => deleteJob st j.id) store
        = store.filter (fun s => !decide (s.id ∈ due.map Job.id)) := by
  intro due
  induction due with
  | nil => intro store; simp
  | cons j rest ih =>
      intro store
      rw [List.foldl_cons]
      show List.foldl _ (deleteJob store j.id) rest = _
      rw [ih, deleteJob, List.filter_filter]
      refine List.filter_congr ?_
      intro s _
      by_cases h1 : s.id = j.id <;> by_cases h2 : s.id ∈ rest.map Job.id <;>
        simp [h1, h2]

/-- With ids unique in the store (the primary-key invariant), a stored job
has its id among the due ids exactly when it is itself due. -/
theorem due_id_mem_iff (now : Int) (store : List Job)
    (hids : (store.map Job.id).Nodup) (s : Job) (hs : s ∈ store) :
    s.id ∈ (dueJobs now store).map Job.id ↔ s.scheduledFor ≤ now := by
  constructor
  · intro h
    rcases List.mem_map.mp h with ⟨j, hj, hji⟩
    have hjs : j ∈ store := (List.mem_filter.mp hj).1
    have hdue : decide (j.scheduledFor ≤ now) = true := (List.mem_filter.mp hj).2
    have hj_eq : j = s := List.inj_on_of_nodup_map hids hjs hs hji
    subst hj_eq
    exact of_decide_eq_true hdue
  · intro h
    exact List.mem_map.mpr
      ⟨s, List.mem_filter.mpr ⟨hs, decide_eq_true h⟩, rfl⟩

/-- If some due job has a failing delete, the sweep returns an error. -/
theorem sweepJobs_delete_fails (secret endpoint : String)
    (send : OutRequest → HttpOutcome) (deleteOk : String → Bool) :
    ∀ (due store : List Job), (∃ j ∈ due, deleteOk j.id = false) →
      (sweepJobs secret endpoint send deleteOk due store).err ≠ none := by
  intro due
  induction due with
  | nil => intro store h; rcases h with ⟨j, hj, _⟩; cases hj
  | cons j rest ih =>
      intro store h
      by_cases hj : deleteOk j.id
      · rcases h with ⟨x, hx, hxf⟩
        rcases List.mem_cons.mp hx with hxj | hxr
        · rw [hxj] at hxf; rw [hj] at hxf; cases hxf
        · have hrest := ih (deleteJob store j.id) ⟨x, hxr, hxf⟩
          simpa [sweepJobs, hj] using hrest
      · simp [sweepJobs, hj]

/-- The store state reached by a sweep and the error it reports do not
depend on the delivery outcomes, and neither does the sequence of job ids
handed to the Callback Sender. -/
theorem sweepJobs_send_independent (secret endpoint : String)
    (send send' : OutRequest → HttpOutcome) (deleteOk : String → Bool) :
    ∀ (due store : List Job),
      (sweepJobs secret endpoint send deleteOk due store).store
          = (sweepJobs secret endpoint send' deleteOk due store).store
      ∧ (sweepJobs secret endpoint send deleteOk due store).err
          = (sweepJobs secret endpoint send' deleteOk due store).err
      ∧ (sweepJobs secret endpoint send deleteOk due store).fired.map Prod.fst
          = (sweepJobs secret endpoint send' deleteOk due store).fired.map Prod.fst := by
  intro due
  induction due with
  | nil => intro store; exact ⟨rfl, rfl, rfl⟩
  | cons j rest ih =>
      intro store
      rcases ih (deleteJob store j.id) with ⟨h1, h2, h3⟩
      by_cases hj : deleteOk j.id <;> simp [sweepJobs, hj, h1, h2, h3]

/-- C1: during a sweep, every due job is handed to the Callback Sender and
then deleted; the resulting store keeps exactly the not-yet-due jobs and the
sweep reports no error whenever every delete succeeds, independently of
delivery outcomes (a failed delivery is only logged); if any delete fails
the sweep aborts with an error and the scheduler worker stops (fatal). -/
theorem c1_sweep_dispatch_then_delete (secret endpoint : String)
    (send : OutRequest → HttpOutcome) (now : Int) (store : List Job)
    (deleteOk : String → Bool) (hids : (store.map Job.id).Nodup) :
    ((∀ j ∈ dueJobs now store, deleteOk j.id = true) →
        executePendingJobs secret endpoint send now store true deleteOk
          = ⟨(dueJobs now store).map
                (fun j => (j.id, exceptOk (executeJob secret endpoint send j))),
             store.filter (fun j => !decide (j.scheduledFor ≤ now)), none⟩)
    ∧ ((∃ j ∈ dueJobs now store, deleteOk j.id = false) →
        (executePendingJobs secret endpoint send now store true deleteOk).err ≠ none
        ∧ (schedSweepStep secret endpoint send now true deleteOk true
              store).1.isStopped = true)
    ∧ (∀ send' : OutRequest → HttpOutcome,
        (executePendingJobs secret endpoint send' now store true deleteOk).store
            = (executePendingJobs secret endpoint send now store true deleteOk).store
        ∧ (executePendingJobs secret endpoint send' now store true deleteOk).err
            = (executePendingJobs secret endpoint send now store true deleteOk).err) := by
  refine ⟨?_, ?_, ?_⟩
  · intro hdel
    have h1 := sweepJobs_deletes_ok secret endpoint send deleteOk
      (dueJobs now store) store hdel
    have h2 := foldl_deleteJob_eq_filter (dueJobs now store) store
    have h3 : store.filter (fun s => !decide (s.id ∈ (dueJobs now store).map Job.id))
        = store.filter (fun j => !decide (j.scheduledFor ≤ now)) := by
      refine List.filter_congr ?_
      intro s hs
      have := due_id_mem_iff now store hids s hs
      by_cases hm : s.id ∈ (dueJobs now store).map Job.id
      · simp [hm, this.mp hm]
      · have : ¬ s.scheduledFor ≤ now := fun hle => hm (this.mpr hle)
        simp [hm, this]
    simp only [executePendingJobs, if_true, h1, h2, h3]
  · intro hfail
    have herr := sweepJobs_delete_fails secret endpoint send deleteOk
      (dueJobs now store) store hfail
    have herr2 : (executePendingJobs secret endpoint send now store true
        deleteOk).err ≠ none := by
      simpa [executePendingJobs] using herr
    refine ⟨herr2, ?_⟩
    rcases he : (executePendingJobs secret endpoint send now store true
        deleteOk).err with _ | e
    · exact absurd he herr2
    · simp [schedSweepStep, he, SchedState.isStopped]
  · intro send'
    rcases sweepJobs_send_independent secret endpoint send' send deleteOk
      (dueJobs now store) store with ⟨h1, h2, _⟩
    exact ⟨by simpa [executePendingJobs] using h1,
           by simpa [executePendingJobs] using h2⟩

/-- C1 witness: one due job and one future job, all deletes succeeding. -/
theorem c1_sweep_dispatch_then_delete_witness :
    (([{ id := "a", scheduledFor := 1, body := some [7] },
       { id := "b", scheduledFor := 5, body := none }] : List Job).map Job.id).Nodup
    ∧ (((∀ j ∈ dueJobs 3 [{ id := "a", scheduledFor := 1, body := some [7] },
            { id := "b", scheduledFor := 5, body := none }],
          (fun _ : String => true) j.id = true) →
        executePendingJobs "s" "e" (fun _ => HttpOutcome.response 200) 3
            [{ id := "a", scheduledFor := 1, body := some [7] },
             { id := "b", scheduledFor := 5, body := none }] true (fun _ => true)
          = ⟨(dueJobs 3 [{ id := "a", scheduledFor := 1, body := some [7] },
                { id := "b", scheduledFor := 5, body := none }]).map
                (fun j => (j.id, exceptOk
                  (executeJob "s" "e" (fun _ => HttpOutcome.response 200) j))),
             ([{ id := "a", scheduledFor := 1, body := some [7] },
               { id := "b", scheduledFor := 5, body := none }] : List Job).filter
                (fun j => !decide (j.scheduledFor ≤ 3)), none⟩)
      ∧ ((∃ j ∈ dueJobs 3 [{ id := "a", scheduledFor := 1, body := some [7] },
            { id := "b", scheduledFor := 5, body := none }],
          (fun _ : String => true) j.id = false) →
        (executePendingJobs "s" "e" (fun _ => HttpOutcome.response 200) 3
            [{ id := "a", scheduledFor := 1, body := some [7] },
             { id := "b", scheduledFor := 5, body := none }] true
            (fun _ => true)).err ≠ none
        ∧ (schedSweepStep "s" "e" (fun _ => HttpOutcome.response 200) 3 true
              (fun _ => true) true
              [{ id := "a", scheduledFor := 1, body := some [7] },
               { id := "b", scheduledFor := 5, body := none }]).1.isStopped = true)
      ∧ (∀ send' : OutRequest → HttpOutcome,
        (executePendingJobs "s" "e" send' 3
            [{ id := "a", scheduledFor := 1, body := some [7] },
             { id := "b", scheduledFor := 5, body := none }] true
            (fun _ => true)).store
          = (executePendingJobs "s" "e" (fun _ => HttpOutcome.response 200) 3
              [{ id := "a", scheduledFor := 1, body := some [7] },
               { id := "b", scheduledFor := 5, body := none }] true
              (fun _ => true)).store
        ∧ (executePendingJobs "s" "e" send' 3
            [{ id := "a", scheduledFor := 1, body := some [7] },
             { id := "b", scheduledFor := 5, body := none }] true
            (fun _ => true)).err
          = (executePendingJobs "s" "e" (fun _ => HttpOutcome.response 200) 3
              [{ id := "a", scheduledFor := 1, body := some [7] },
               { id := "b", scheduledFor := 5, body := none }] true
              (fun _ => true)).err)) :=
  ⟨by decide,
    c1_sweep_dispatch_then_delete "s" "e" (fun _ => HttpOutcome.response 200) 3
      [{ id := "a", scheduledFor := 1, body := some [7] },
       { id := "b", scheduledFor := 5, body := none }] (fun _ => true) (by decide)⟩

/-- C3: after a sweep that hit no store error, the worker blocks at the
bare receive when the store is empty (ended only by a recompute signal), or
blocks in the select armed with a timer for the earliest due time when a
job remains (ended by the timer or a signal, whichever comes first); every
wake resumes the loop at the next sweep, and the loop stops only through a
store error (a wake never stops the worker). -/
theorem c3_loop_blocks_and_resweeps (secret endpoint : String)
    (send : OutRequest → HttpOutcome) (now : Int) (deleteOk : String → Bool)
    (store : List Job)
    (h : (executePendingJobs secret endpoint send now store true deleteOk).err
        = none) :
    ((schedSweepStep secret endpoint send now true deleteOk true store).2 = [] →
      (schedSweepStep secret endpoint send now true deleteOk true store).1
        = SchedState.waitingForSignal)
    ∧ (∀ t : Int,
        ((schedSweepStep secret endpoint send now true deleteOk true
            store).2.map Job.scheduledFor).min? = some t →
        (schedSweepStep secret endpoint send now true deleteOk true store).1
          = SchedState.sleepingUntil t)
    ∧ (schedSweepStep secret endpoint send now true deleteOk true
        store).1.isStopped = false
    ∧ schedWakeStep SchedState.waitingForSignal WakeEvent.signal
        = SchedState.sweeping
    ∧ schedWakeStep SchedState.waitingForSignal WakeEvent.timerFired
        = SchedState.waitingForSignal
    ∧ (∀ (t : Int) (e : WakeEvent),
        schedWakeStep (SchedState.sleepingUntil t) e = SchedState.sweeping)
    ∧ (∀ (s : SchedState) (e : WakeEvent),
        (schedWakeStep s e).isStopped = s.isStopped) := by
  have hstep : schedSweepStep secret endpoint send now true deleteOk true store
      = (match ((executePendingJobs secret endpoint send now store true
            deleteOk).store.map Job.scheduledFor).min? with
         | none => (SchedState.waitingForSignal,
             (executePendingJobs secret endpoint send now store true deleteOk).store)
         | some t => (SchedState.sleepingUntil t,
             (executePendingJobs secret endpoint send now store true
               deleteOk).store)) := by
    simp only [schedSweepStep, h, nextScheduledJob, if_true]
    rcases hm : ((executePendingJobs secret endpoint send now store true
        deleteOk).store.map Job.scheduledFor).min? with _ | t <;> simp [hm]
  refine ⟨?_, ?_, ?_, rfl, rfl, ?_, ?_⟩
  · intro h2
    rcases hm : ((executePendingJobs secret endpoint send now store true
        deleteOk).store.map Job.scheduledFor).min? with _ | t
    · rw [hstep]; simp [hm]
    · rw [hstep] at h2
      simp only [hm] at h2
      rw [h2] at hm
      simp at hm
  · intro t ht
    rcases hm : ((executePendingJobs secret endpoint send now store true
        deleteOk).store.map Job.scheduledFor).min? with _ | u
    · rw [hstep] at ht
      simp only [hm] at ht
      simp [hm] at ht
    · rw [hstep] at ht ⊢
      simp only [hm] at ht ⊢
      simp only [Option.some.injEq] at ht
      rw [ht]
  · rcases hm : ((executePendingJobs secret endpoint send now store true
        deleteOk).store.map Job.scheduledFor).min? with _ | t <;>
      rw [hstep] <;> simp [hm, SchedState.isStopped]
  · intro t e; cases e <;> rfl
  · intro s e; cases s <;> cases e <;> rfl

/-- C3 witness: a store whose one job is still in the future. -/
theorem c3_loop_blocks_and_resweeps_witness :
    ((executePendingJobs "s" "e" (fun _ => HttpOutcome.response 200) 3
        [{ id := "b", scheduledFor := 5, body := none }] true
        (fun _ => true)).err = none)
    ∧ (((schedSweepStep "s" "e" (fun _ => HttpOutcome.response 200) 3 true
          (fun _ => true) true
          [{ id := "b", scheduledFor := 5, body := none }]).2 = [] →
        (schedSweepStep "s" "e" (fun _ => HttpOutcome.response 200) 3 true
          (fun _ => true) true
          [{ id := "b", scheduledFor := 5, body := none }]).1
          = SchedState.waitingForSignal)
      ∧ (∀ t : Int,
          ((schedSweepStep "s" "e" (fun _ => HttpOutcome.response 200) 3 true
              (fun _ => true) true
              [{ id := "b", scheduledFor := 5, body := none }]).2.map
                Job.scheduledFor).min? = some t →
          (schedSweepStep "s" "e" (fun _ => HttpOutcome.response 200) 3 true
            (fun _ => true) true
            [{ id := "b", scheduledFor := 5, body := none }]).1
            = SchedState.sleepingUntil t)
      ∧ (schedSweepStep "s" "e" (fun _ => HttpOutcome.response 200) 3 true
          (fun _ => true) true
          [{ id := "b", scheduledFor := 5, body := none }]).1.isStopped = false
      ∧ schedWakeStep SchedState.waitingForSignal WakeEvent.signal
          = SchedState.sweeping
      ∧ schedWakeStep SchedState.waitingForSignal WakeEvent.timerFired
          = SchedState.waitingForSignal
      ∧ (∀ (t : Int) (e : WakeEvent),
          schedWakeStep (SchedState.sleepingUntil t) e = SchedState.sweeping)
      ∧ (∀ (s : SchedState) (e : WakeEvent),
          (schedWakeStep s e).isStopped = s.isStopped)) :=
  ⟨by decide,
    c3_loop_blocks_and_resweeps "s" "e" (fun _ => HttpOutcome.response 200) 3
      (fun _ => true) [{ id := "b", scheduledFor := 5, body := none }]
      (by decide)⟩

/-- C9 counterexample: the recomp channel is created unbuffered, so with the
worker mid-sweep an emission does not complete immediately (it blocks), two
mutations mid-sweep leave two pending (blocked) senders rather than at most
one, and the single follow-up wake absorbs only one of them — the claimed
single-slot coalescing behaviour fails on every count. -/
theorem c9_signal_counterexample :
    ¬ (sendCompletesImmediately recompChan false = true
       ∧ (runSignals ⟨false, 0, 0⟩
            [SignalStep.emit, SignalStep.emit]).blockedSenders ≤ 1
       ∧ (runSignals ⟨false, 0, 0⟩
            [SignalStep.emit, SignalStep.emit, SignalStep.park]).blockedSenders
          = 0) := by
  decide

/-- C9 amended: the signal is a payload-free wake notification on an
unbuffered channel: while the worker is mid-sweep an emission blocks the
emitter and each mutation queues as one more blocked sender; each time the
worker parks at its receive it absorbs exactly one pending signal as one
wake (an emission finding the worker parked is an immediate rendezvous), so
two mutations mid-sweep produce two wakes, with one sender still pending
after the first. -/
theorem c9_signal_unbuffered_rendezvous :
    recompChan.capacity = 0
    ∧ sendCompletesImmediately recompChan false = false
    ∧ (∀ b w : Nat,
        signalStep ⟨false, b, w⟩ SignalStep.emit = ⟨false, b + 1, w⟩)
    ∧ (∀ b w : Nat,
        signalStep ⟨false, b + 1, w⟩ SignalStep.park = ⟨false, b, w + 1⟩)
    ∧ (∀ w : Nat,
        signalStep ⟨true, 0, w⟩ SignalStep.emit = ⟨false, 0, w + 1⟩)
    ∧ (runSignals ⟨false, 0, 0⟩
        [SignalStep.emit, SignalStep.emit, SignalStep.park]).blockedSenders = 1
    ∧ (runSignals ⟨false, 0, 0⟩
        [SignalStep.emit, SignalStep.emit, SignalStep.park,
         SignalStep.park]).wakes = 2 := by
  refine ⟨rfl, rfl, ?_, ?_, ?_, rfl, rfl⟩
  · intro b w; rfl
  · intro b w; rfl
  · intro w; rfl

end Sched
